import Mathlib

/-!
Verification of the sunat-playwright-scraper ticket queue service.

This file embeds, as executable Lean definitions, the core logic of the
repository's asynchronous scraping service:

* `src/scraper.ts` — `scraper.getSunatTokens`, `resolveLegacyTokens`,
  `resolveLTSTokens`: the token resolver.  Browser I/O (page navigation,
  login, DOM clicks) is modelled by an outcome oracle (`ScrapeEnv`): each
  failable step of the source is represented by its observable outcome
  (a token value, a null, or a thrown exception), and the control flow
  around those steps is translated literally.
* the main server file (`src/unnamed/part_002`) — `resolveSunatTokens`
  (result cache), the `processQueue` worker body (retry loop with
  `Object.assign` merging, error records), `areTargetsFulfilled`,
  `findExistingTicket`, the `POST /create-ticket` handler and its body
  schema, the `GET /get-token` handler, the `activeWorkers` admission
  gate, and the shared-browser lifecycle.

JavaScript `null`/`undefined` is modelled as `Option.none`; JS truthiness
on strings (`!!s`, which is false for both `null` and `""`) is modelled by
`isTruthy`.  Redis / NodeCache key-value state is modelled by association
lists with first-match lookup (a fresh `set` prepends, shadowing older
entries, matching overwrite semantics).
-/

/-- JS truthiness of a `string | null` value: `null` and `""` are falsy. -/
def isTruthy : Option String → Bool
  | none => false
  | some s => !s.isEmpty

/-- `GetSunatTokenResult` from `src/scraper.ts`: one optional token per
known target.  In the source every constructed result object owns all
three properties (possibly `null`). -/
structure TokenBundle where
  sire : Option String
  cpe : Option String
  unified_platform : Option String
deriving Repr, DecidableEq

/-- `GetSunatTokenPayload` from `src/scraper.ts`.  Targets are kept as raw
strings, as they are at runtime. -/
structure Payload where
  sol_username : String
  sol_key : String
  ruc : String
  targets : List String
deriving Repr, DecidableEq

/-- `areTargetsFulfilled` from the server file: every requested target's
field must be truthy; an unknown target string is never fulfilled. -/
def areTargetsFulfilled (result : TokenBundle) (targets : List String) : Bool :=
  targets.all fun target =>
    if target = "sire" then isTruthy result.sire
    else if target = "cpe" then isTruthy result.cpe
    else if target = "unified-platform" then isTruthy result.unified_platform
    else false

/-! ## Token resolver (`src/scraper.ts`) -/

/-- Observable outcome of one failable browser step: either the step ran
to completion producing a `string | null` value, or it threw. -/
inductive StepOutcome (α : Type)
  | ok (val : α)
  | thrown
deriving Repr, DecidableEq

/-- Value a per-target block leaves in its token variable: the produced
value on completion, or the initial `null` when the step threw (the
`catch` in `resolveLegacyTokens` only logs and keeps the variable). -/
def stepVal : StepOutcome (Option String) → Option String
  | .ok t => t
  | .thrown => none

/-- Outcome oracle for `resolveLegacyTokens`: `sharedOk` covers the shared
steps (`page.goto`, `handleLogin`, title check, `mitigateRedundantMenuItems`)
whose exceptions abort the whole `hunt`; `sireStep` / `cpeStep` are the
per-target try-blocks (`goToSireMenu`/`goToCpeMenu` plus `resolveToken`);
`goBackOk` is the unguarded `goBack()` click between the two. -/
structure LegacyEnv where
  sharedOk : Bool
  sireStep : StepOutcome (Option String)
  goBackOk : Bool
  cpeStep : StepOutcome (Option String)
deriving Repr, DecidableEq

/-- `GetSunatLegacyResult` from `src/scraper.ts`. -/
structure GetSunatLegacyResult where
  sire : Option String
  cpe : Option String
deriving Repr, DecidableEq

/-- `resolveLegacyTokens` from `src/scraper.ts`: shared-step failure (or a
`goBack` failure) is caught by the outer catch and returns `null`; each
per-target failure is caught inside its own try and leaves that token
`null`; a target not requested is never attempted. -/
def resolveLegacyTokens (env : LegacyEnv) (targets : List String) :
    Option GetSunatLegacyResult :=
  if !env.sharedOk then none
  else
    let sireToken : Option String :=
      if targets.contains "sire" then stepVal env.sireStep else none
    if !env.goBackOk then none
    else
      let cpeToken : Option String :=
        if targets.contains "cpe" then stepVal env.cpeStep else none
      some { sire := sireToken, cpe := cpeToken }

/-- Outcome oracle for `resolveLTSTokens`: the whole `huntToken` body up to
token extraction — thrown, or completed with the regex match result
(`null` when the page script held no token). -/
structure LTSEnv where
  huntStep : StepOutcome (Option String)
deriving Repr, DecidableEq

/-- `GetSunatLTSResult` from `src/scraper.ts`. -/
structure GetSunatLTSResult where
  unified_platform : Option String
deriving Repr, DecidableEq

/-- `resolveLTSTokens` from `src/scraper.ts`: an exception is caught and
`null` returned; a missing token in the page also returns `null`. -/
def resolveLTSTokens (env : LTSEnv) : Option GetSunatLTSResult :=
  match env.huntStep with
  | .thrown => none
  | .ok none => none
  | .ok (some t) => some { unified_platform := some t }

/-- The token the LTS flow contributes, as a single optional value. -/
def ltsVal (env : LTSEnv) : Option String :=
  match env.huntStep with
  | .ok (some t) => some t
  | _ => none

/-- Outcome oracle for one whole `scraper.getSunatTokens` call. -/
structure ScrapeEnv where
  legacy : LegacyEnv
  lts : LTSEnv
deriving Repr, DecidableEq

/-- The literal object spread
`{cpe: null, sire: null, unified_platform: null, ...legacyTokens, ...ltsTokens}`:
spreading `null` contributes nothing; spreading a result object overwrites
the defaults with that object's (possibly null) fields. -/
def spreadBundle (legacy : Option GetSunatLegacyResult)
    (lts : Option GetSunatLTSResult) : TokenBundle :=
  { sire := match legacy with | some l => l.sire | none => none
    cpe := match legacy with | some l => l.cpe | none => none
    unified_platform := match lts with | some r => r.unified_platform | none => none }

/-- `scraper.getSunatTokens` from `src/scraper.ts`: runs the legacy flow
when `cpe` or `sire` is requested, the LTS flow when `unified-platform`
is requested, and always returns the spread object (never `null`). -/
def getSunatTokens (env : ScrapeEnv) (p : Payload) : Option TokenBundle :=
  let legacyTokens : Option GetSunatLegacyResult :=
    if p.targets.contains "cpe" || p.targets.contains "sire" then
      resolveLegacyTokens env.legacy p.targets
    else none
  let ltsTokens : Option GetSunatLTSResult :=
    if p.targets.contains "unified-platform" then resolveLTSTokens env.lts
    else none
  some (spreadBundle legacyTokens ltsTokens)

/-! ## Result cache and `resolveSunatTokens` (server file) -/

/-- The NodeCache result cache: key-value pairs, newest first. -/
abbrev Cache := List (String × TokenBundle)

/-- The cache key `payload.ruc ++ ":" ++ payload.targets.join("%")`. -/
def resolveCacheKey (p : Payload) : String :=
  p.ruc ++ ":" ++ String.intercalate "%" p.targets

def cacheGet (c : Cache) (k : String) : Option TokenBundle :=
  c.lookup k

def cacheSet (c : Cache) (k : String) (v : TokenBundle) : Cache :=
  (k, v) :: c

/-- `resolveSunatTokens` from the server file: consult the result cache
when `useCache`, otherwise (or on a miss) call the scraper; a non-null
scraper result is written back to the cache.  The browser-launch section
is lifecycle only and is modelled separately (`browserStep`). -/
def resolveSunatTokens (env : ScrapeEnv) (c : Cache) (p : Payload)
    (useCache : Bool) : Option TokenBundle × Cache :=
  let cacheKey := resolveCacheKey p
  match (if useCache then cacheGet c cacheKey else none) with
  | some cachedTokens => (some cachedTokens, c)
  | none =>
    match getSunatTokens env p with
    | none => (none, c)
    | some result => (some result, cacheSet c cacheKey result)

/-! ## Worker retry loop (`processQueue` in the server file) -/

/-- `Object.assign(result, retryResult)` where `retryResult` is a
`GetSunatTokenResult`: such an object always owns all three properties
(`cpe`, `sire`, `unified_platform` are all listed in the object literal
in `getSunatTokens`, and cached values are such results), so the assign
overwrites every field of the destination, null fields included. -/
def objectAssign (_dst src : TokenBundle) : TokenBundle :=
  { sire := src.sire, cpe := src.cpe, unified_platform := src.unified_platform }

/-- The `while (!areTargetsFulfilled(result, payload.targets) && retries < 3)`
loop of `processQueue`.  `envs k` is the outcome oracle of attempt `k`
(attempt 0 is the initial resolution).  `fuel` is the remaining retry
budget `3 - retries`; the top-level call passes `retries = 0, fuel = 3`
(for a freshly created ticket id `ticketRetries.get` yields nothing, so
the counter starts at 0).  Each retry bypasses the cache, and a non-null
retry result is `Object.assign`ed onto the accumulated bundle. -/
def retryLoop (envs : Nat → ScrapeEnv) (c : Cache) (p : Payload)
    (result : TokenBundle) (retries : Nat) (fuel : Nat) :
    TokenBundle × Nat × Cache :=
  if areTargetsFulfilled result p.targets then (result, retries, c)
  else match fuel with
    | 0 => (result, retries, c)
    | fuel + 1 =>
      match resolveSunatTokens (envs (retries + 1)) c p false with
      | (retryResult, c2) =>
        let result2 := match retryResult with
          | some r => objectAssign result r
          | none => result
        retryLoop envs c2 p result2 (retries + 1) fuel

/-- Terminal record the worker writes for a ticket. -/
inductive TicketOutcome
  | resultSaved (b : TokenBundle)
  | errorSaved (msg : String)
deriving Repr, DecidableEq

/-- The per-ticket body of `processQueue` (inner `try`, no exception):
initial resolution with the cache, then the retry loop; a fulfilled
accumulated bundle is saved as the result record, otherwise the
"not all requested targets could be resolved" error record is written;
a null first resolution would write "failed to get token". -/
def processTicket (envs : Nat → ScrapeEnv) (c : Cache) (p : Payload) :
    TicketOutcome × Cache :=
  match resolveSunatTokens (envs 0) c p true with
  | (none, c0) => (.errorSaved "failed to get token", c0)
  | (some result, c0) =>
    match retryLoop envs c0 p result 0 3 with
    | (result2, _retries2, c2) =>
      if areTargetsFulfilled result2 p.targets then (.resultSaved result2, c2)
      else (.errorSaved "not all requested targets could be resolved", c2)

/-! ## Ticket store and `GET /get-token` -/

/-- The per-ticket Redis keys: `ticket:<id>:payload` (raw JSON string),
`ticket:<id>:result` (modelled parsed), `ticket:<id>:error`. -/
structure Store where
  payload : Option String
  result : Option TokenBundle
  error : Option String
deriving Repr, DecidableEq

/-- Writing the worker's terminal record into the ticket store. -/
def applyOutcome (s : Store) : TicketOutcome → Store
  | .resultSaved b => { s with result := some b }
  | .errorSaved m => { s with error := some m }

inductive GetTokenResponse
  | notFound
  | errorResp (msg : String)
  | okResp (b : TokenBundle)
  | pendingResp
deriving Repr, DecidableEq

/-- The `GET /get-token` handler: 404 when the payload key does not exist;
else 500 with the error record when one exists (JS truthiness on the
string); else `ok` with the parsed result when present; else `pending`. -/
def getToken (s : Store) : GetTokenResponse :=
  if s.payload.isNone then .notFound
  else if isTruthy s.error then .errorResp (s.error.getD "")
  else match s.result with
    | some b => .okResp b
    | none => .pendingResp

/-! ## Ticket deduplication and `POST /create-ticket` -/

/-- Response body of `POST /create-ticket`. -/
structure CreateTicketResponse where
  ticket_id : String
  status : String
deriving Repr, DecidableEq

/-- Process/Redis state the create-ticket path touches: the NodeCache
lookup-shortcut entries, the per-ticket result records, the per-ticket
payload records, and the FIFO queue list. -/
structure ServerState where
  lookupCache : List (String × String)
  results : List (String × TokenBundle)
  payloads : List (String × Payload)
  queue : List String
deriving Repr, DecidableEq

/-- The lookup-shortcut key
`ticket-lookup:<ruc>:<sol_username>:<sol_key>`. -/
def lookupKey (p : Payload) : String :=
  "ticket-lookup:" ++ p.ruc ++ ":" ++ p.sol_username ++ ":" ++ p.sol_key

/-- `findExistingTicket` from the server file: a lookup-cache hit is
re-validated by loading that ticket's result record and checking it
fulfils the currently requested targets; any miss yields `null`.
(Ticket ids are non-empty uuids, so the JS truthiness test on the cached
id is just presence.) -/
def findExistingTicket (st : ServerState) (p : Payload) : Option String :=
  match st.lookupCache.lookup (lookupKey p) with
  | none => none
  | some cachedTicketId =>
    match st.results.lookup cachedTicketId with
    | none => none
    | some result =>
      if areTargetsFulfilled result p.targets then some cachedTicketId
      else none

/-- The `POST /create-ticket` handler body (success path): reuse an
existing ticket when `findExistingTicket` finds one, otherwise persist
the payload, push the fresh id onto the queue, and record the
lookup-shortcut entry. -/
def createTicket (st : ServerState) (newId : String) (p : Payload) :
    CreateTicketResponse × ServerState :=
  match findExistingTicket st p with
  | some tid => ({ ticket_id := tid, status := "reused" }, st)
  | none =>
    ({ ticket_id := newId, status := "pending" },
     { st with
        payloads := (newId, p) :: st.payloads
        queue := st.queue ++ [newId]
        lookupCache := (lookupKey p, newId) :: st.lookupCache })

/-! ## `POST /create-ticket` body schema -/

/-- A raw request body before validation. -/
structure RawBody where
  sol_username : String
  sol_key : String
  ruc : String
  targets : List String
deriving Repr, DecidableEq

/-- Membership in the `t.Union` of target literals. -/
def isKnownTarget (s : String) : Bool :=
  s == "sire" || s == "cpe" || s == "unified-platform"

/-- The `t.Object` body schema of `POST /create-ticket`:
`sol_username` 3–8 chars, `sol_key` 2–12 chars, `ruc` exactly 11 chars,
`targets` an array whose every element is one of the three literals.
The schema places no minimum length on the array itself. -/
def validateBody (b : RawBody) : Bool :=
  decide (3 ≤ b.sol_username.length) && decide (b.sol_username.length ≤ 8) &&
  decide (2 ≤ b.sol_key.length) && decide (b.sol_key.length ≤ 12) &&
  decide (b.ruc.length = 11) &&
  b.targets.all isKnownTarget

/-- A validated body, as the handler receives it. -/
def toPayload (b : RawBody) : Payload :=
  { sol_username := b.sol_username, sol_key := b.sol_key, ruc := b.ruc,
    targets := b.targets }

/-! ## Worker admission gate (`activeWorkers` in the server file) -/

/-- `MAX_CONCURRENT_WORKERS` when the environment variable is unset. -/
def MAX_CONCURRENT_WORKERS : Nat := 3

/-- One observable transition of the `activeWorkers` counter.  The check
`if (activeWorkers >= MAX_CONCURRENT_WORKERS) return` and the increment
`activeWorkers++` run synchronously with no suspension point between
them, so an admission is a single atomic guarded step; the `finally`
block decrements exactly once on every exit path of an admitted worker. -/
inductive workerStep (maxW : Nat) : Nat → Nat → Prop
  | tickNoop (aw : Nat) : maxW ≤ aw → workerStep maxW aw aw
  | tickStart (aw : Nat) : aw < maxW → workerStep maxW aw (aw + 1)
  | workerDone (aw : Nat) : workerStep maxW (aw + 1) aw

/-- States of the counter reachable from process start (`activeWorkers = 0`). -/
inductive WorkerReachable (maxW : Nat) : Nat → Prop
  | init : WorkerReachable maxW 0
  | step (s s' : Nat) : WorkerReachable maxW s → workerStep maxW s s' →
      WorkerReachable maxW s'

/-! ## Shared browser lifecycle (server file) -/

/-- Events that touch the shared `browser` handle.  `resolveStart` is a
`resolveSunatTokens` call reaching the browser section: it launches the
browser when the handle is unset and keeps it otherwise.  `idleCheck` is
the passage of an observation interval with zero (or unchanged) open
contexts — the source installs no handler for such a condition, so it
changes nothing.  `shutdownEvt` is the graceful-server `onShutdown` hook,
the only place the handle is closed and discarded. -/
inductive BrowserEvent
  | resolveStart
  | idleCheck
  | shutdownEvt
deriving Repr, DecidableEq

/-- Effect of one event on whether the shared handle is open. -/
def browserStep (open2 : Bool) : BrowserEvent → Bool
  | .resolveStart => true
  | .idleCheck => open2
  | .shutdownEvt => false

/-- The handle state after a sequence of events. -/
def browserRun (open2 : Bool) (evs : List BrowserEvent) : Bool :=
  evs.foldl browserStep open2

/-! ## One `processQueue` tick with exception sites (server file) -/

/-- Exception oracle for one `processQueue` tick.  `lpopThrows`,
`getPayloadThrows` and `parseThrows` are the statements of the outer
`try` that precede the inner `try` (queue pop, `redis.get` of the
payload, `JSON.parse`); `innerThrows` is any exception inside the inner
`try` (resolution attempts or the result/error `redis.set` writes);
`errorWriteThrows` is the `redis.set` inside the `catch` handler itself. -/
structure TickEnv where
  lpopThrows : Bool
  getPayloadThrows : Bool
  parseThrows : Bool
  innerThrows : Bool
  errorWriteThrows : Bool
  envs : Nat → ScrapeEnv

/-- Observable outcome of one tick for the popped ticket. -/
inductive TickOutcome
  | idle
  | abandoned
  | completed (o : TicketOutcome)
  | escaped
deriving Repr, DecidableEq

/-- The body of `processQueue` for one tick.  The outer `try` has only a
`finally` (the `activeWorkers` decrement), no `catch`: an exception
before the inner `try` — or one raised by the error write inside the
`catch` handler — propagates out of the tick (`escaped`) with no record
written.  An exception inside the inner `try` is converted to the
"internal server error" record.  A missing payload abandons the ticket
silently. -/
def processQueueTick (te : TickEnv) (queue : List String)
    (storedPayload : Option Payload) (c : Cache) : TickOutcome :=
  if te.lpopThrows then .escaped
  else match queue with
  | [] => .idle
  | _ :: _ =>
    if te.getPayloadThrows then .escaped
    else match storedPayload with
    | none => .abandoned
    | some p =>
      if te.parseThrows then .escaped
      else if te.innerThrows then
        if te.errorWriteThrows then .escaped
        else .completed (.errorSaved "internal server error")
      else .completed (processTicket te.envs c p).1

/-! ## Shared sample data -/

/-- A bundle with every target resolved. -/
def fullBundle : TokenBundle :=
  { sire := some "s-token", cpe := some "c-token",
    unified_platform := some "u-token" }

/-! ## Claim C4 -/

/-- Claim C4: in every reachable state of the worker system the
`activeWorkers` counter stays within `[0, maxW]` (the lower bound is
intrinsic to `Nat`): a tick that finds the counter at or above the
maximum is a no-op, an admission increments it atomically under the
guard, and every admitted worker decrements it exactly once on exit. -/
theorem c4_active_workers_bounded (maxW s : Nat)
    (h : WorkerReachable maxW s) : s ≤ maxW := by
  induction h with
  | init => exact Nat.zero_le maxW
  | step s s' _ hstep ih =>
    cases hstep with
    | tickNoop _ _ => exact ih
    | tickStart _ hlt => omega
    | workerDone aw => omega

/-- Witness for C4 at a concrete reachable state: one admitted worker
under the default maximum of 3. -/
theorem c4_active_workers_bounded_witness : (1 : Nat) ≤ MAX_CONCURRENT_WORKERS :=
  c4_active_workers_bounded MAX_CONCURRENT_WORKERS 1
    (WorkerReachable.step 0 1 WorkerReachable.init
      (workerStep.tickStart 0 (by decide)))

/-! ## Claim C6 -/

/-- Claim C6: `GET /get-token` dispatch — 404 when the payload key does
not exist, regardless of lingering result or error records; else 500
with the stored error message when an error record exists (the records
the worker writes are non-empty strings); else `ok` with the stored
bundle; else `pending`. -/
theorem c6_get_token_dispatch (s : Store) :
    (s.payload = none → getToken s = .notFound)
  ∧ (∀ m, s.payload.isSome = true → s.error = some m → m ≠ "" →
      getToken s = .errorResp m)
  ∧ (∀ b, s.payload.isSome = true → s.error = none → s.result = some b →
      getToken s = .okResp b)
  ∧ (s.payload.isSome = true → s.error = none → s.result = none →
      getToken s = .pendingResp) := by
  refine ⟨?_, ?_, ?_, ?_⟩
  · intro h
    simp [getToken, h]
  · intro m hp he hm
    have hne : s.payload.isNone = false := by
      cases hsp : s.payload with
      | none => rw [hsp] at hp; simp at hp
      | some v => rfl
    have hmne : m.isEmpty = false := by
      cases hme : m.isEmpty with
      | false => rfl
      | true => exact absurd ((String.isEmpty_iff m).mp hme) hm
    simp [getToken, hne, he, isTruthy, hmne]
  · intro b hp he hr
    have hne : s.payload.isNone = false := by
      cases hsp : s.payload with
      | none => rw [hsp] at hp; simp at hp
      | some v => rfl
    simp [getToken, hne, he, isTruthy, hr]
  · intro hp he hr
    have hne : s.payload.isNone = false := by
      cases hsp : s.payload with
      | none => rw [hsp] at hp; simp at hp
      | some v => rfl
    simp [getToken, hne, he, isTruthy, hr]

/-- Witness for C6 at concrete stores: an expired payload with lingering
records is 404; and each of the error / ok / pending branches fires on a
store exercising it. -/
theorem c6_get_token_dispatch_witness :
    getToken { payload := none, result := some fullBundle, error := some "boom" }
      = .notFound
  ∧ getToken { payload := some "{}", result := some fullBundle, error := some "boom" }
      = .errorResp "boom"
  ∧ getToken { payload := some "{}", result := some fullBundle, error := none }
      = .okResp fullBundle
  ∧ getToken { payload := some "{}", result := none, error := none }
      = .pendingResp :=
  ⟨(c6_get_token_dispatch _).1 rfl,
   (c6_get_token_dispatch _).2.1 "boom" rfl rfl (by decide),
   (c6_get_token_dispatch _).2.2.1 fullBundle rfl rfl rfl,
   (c6_get_token_dispatch _).2.2.2 rfl rfl rfl⟩

/-! ## Claim C5 (corrected) -/

/-- Claim C5 counterexample: a run that launches the browser and then
passes 120 consecutive observation intervals with zero open contexts
(an hour of the claimed 30-second checks) still has the handle open —
the source installs no periodic release-if-idle task, so the claimed
eventual idle release never happens. -/
theorem c5_counterexample :
    browserRun false
      (BrowserEvent.resolveStart :: List.replicate 120 BrowserEvent.idleCheck)
      = true := by
  decide

/-- Claim C5 (amended): the shared browser handle is launched lazily by
the first resolution that needs it and is released only by the graceful
shutdown hook; in any run without a shutdown event the handle stays open
exactly when it was open or some resolution started, no matter how many
idle checks elapse, and a shutdown event always leaves it closed. -/
theorem c5_shutdown_only_release (evs : List BrowserEvent) (b : Bool)
    (h : BrowserEvent.shutdownEvt ∉ evs) :
    browserRun b evs = (b || decide (BrowserEvent.resolveStart ∈ evs))
  ∧ browserRun b (evs ++ [BrowserEvent.shutdownEvt]) = false := by
  constructor
  · induction evs generalizing b with
    | nil => simp [browserRun]
    | cons e tl ih =>
      have htl : BrowserEvent.shutdownEvt ∉ tl := by
        intro hmem
        exact h (List.mem_cons_of_mem e hmem)
      cases e with
      | resolveStart =>
        simp only [browserRun, List.foldl_cons] at ih ⊢
        rw [show browserStep b .resolveStart = true from rfl, ih true htl]
        simp [List.mem_cons]
      | idleCheck =>
        simp only [browserRun, List.foldl_cons] at ih ⊢
        rw [show browserStep b .idleCheck = b from rfl, ih b htl]
        simp [List.mem_cons]
      | shutdownEvt =>
        exact absurd (List.mem_cons_self _ _) h
  · simp [browserRun, List.foldl_append, browserStep]

/-- Witness for C5 (amended) on a concrete run. -/
theorem c5_shutdown_only_release_witness :
    browserRun false [BrowserEvent.resolveStart, BrowserEvent.idleCheck]
      = (false || decide (BrowserEvent.resolveStart ∈
          [BrowserEvent.resolveStart, BrowserEvent.idleCheck]))
  ∧ browserRun false
      ([BrowserEvent.resolveStart, BrowserEvent.idleCheck] ++ [BrowserEvent.shutdownEvt])
      = false :=
  c5_shutdown_only_release _ false (by decide)

/-! ## Claim C9 (corrected) -/

/-- A submission whose targets array is empty but whose credential fields
satisfy the schema. -/
def emptyTargetsBody : RawBody :=
  { sol_username := "user1", sol_key := "key1", ruc := "20123456789",
    targets := [] }

/-- The server state before any ticket exists. -/
def emptyState : ServerState :=
  { lookupCache := [], results := [], payloads := [], queue := [] }

/-- Claim C9 counterexample: the body schema accepts an empty `targets`
array (it constrains only the element type, not a minimum length), so
the submission is not rejected with a 4xx validation error, and the
handler creates a ticket for it. -/
theorem c9_counterexample :
    validateBody emptyTargetsBody = true
  ∧ emptyTargetsBody.targets = []
  ∧ (createTicket emptyState "ticket-1" (toPayload emptyTargetsBody)).1
      = { ticket_id := "ticket-1", status := "pending" } := by
  refine ⟨by decide, rfl, ?_⟩
  decide

/-- Claim C9 (amended): validation checks each element of `targets`
against the three known literals (and the credential length bounds), but
does not require the array to be non-empty: emptying the `targets` of
any valid body leaves it valid, and such a submission proceeds to ticket
creation. -/
theorem c9_element_validation_only (b : RawBody) :
    (validateBody b = true → ∀ t ∈ b.targets, isKnownTarget t = true)
  ∧ (validateBody b = true → validateBody { b with targets := [] } = true) := by
  constructor
  · intro hv t ht
    simp only [validateBody, Bool.and_eq_true, List.all_eq_true] at hv
    exact hv.2 t ht
  · intro hv
    simp only [validateBody, Bool.and_eq_true, List.all_eq_true] at hv ⊢
    exact ⟨hv.1, by intro t ht; simp at ht⟩

/-- Witness for C9 (amended) at a concrete valid body. -/
def oneTargetBody : RawBody :=
  { sol_username := "user1", sol_key := "key1", ruc := "20123456789",
    targets := ["sire"] }

/-- Witness for C9 (amended). -/
theorem c9_element_validation_only_witness :
    isKnownTarget "sire" = true
  ∧ validateBody { oneTargetBody with targets := [] } = true :=
  ⟨(c9_element_validation_only oneTargetBody).1 (by decide) "sire" (by decide),
   (c9_element_validation_only oneTargetBody).2 (by decide)⟩

/-! ## Helper lemmas about the resolver and the retry loop -/

/-- `scraper.getSunatTokens` always returns the spread object. -/
theorem getSunatTokens_isSome (env : ScrapeEnv) (p : Payload) :
    (getSunatTokens env p).isSome = true := by
  simp [getSunatTokens]

/-- `resolveSunatTokens` never returns `null`: a cache hit is a result
object, and a miss forwards the scraper's always-non-null result. -/
theorem resolveSunatTokens_fst_isSome (env : ScrapeEnv) (c : Cache)
    (p : Payload) (useCache : Bool) :
    ((resolveSunatTokens env c p useCache).1).isSome = true := by
  simp only [resolveSunatTokens]
  cases hcg : (if useCache = true then cacheGet c (resolveCacheKey p) else none) with
  | some v => simp [hcg]
  | none => simp [hcg, getSunatTokens]

/-- With the cache bypassed, the bundle a retry attempt produces is
exactly the scraper's output for that attempt. -/
theorem resolveSunatTokens_no_cache (env : ScrapeEnv) (c : Cache)
    (p : Payload) (b : TokenBundle) (h : getSunatTokens env p = some b) :
    resolveSunatTokens env c p false
      = (some b, cacheSet c (resolveCacheKey p) b) := by
  simp [resolveSunatTokens, h, cacheSet]

/-- The retry counter grows by at most the remaining fuel. -/
theorem retryLoop_retries_le (envs : Nat → ScrapeEnv) (c : Cache)
    (p : Payload) (result : TokenBundle) (retries fuel : Nat) :
    (retryLoop envs c p result retries fuel).2.1 ≤ retries + fuel := by
  induction fuel generalizing c result retries with
  | zero =>
    unfold retryLoop
    split <;> simp
  | succ n ih =>
    unfold retryLoop
    split
    · simp
    · exact le_trans (ih _ _ _) (by omega)

/-- An already-fulfilled bundle stops the loop immediately. -/
theorem retryLoop_fulfilled (envs : Nat → ScrapeEnv) (c : Cache)
    (p : Payload) (result : TokenBundle) (retries fuel : Nat)
    (h : areTargetsFulfilled result p.targets = true) :
    retryLoop envs c p result retries fuel = (result, retries, c) := by
  unfold retryLoop
  simp [h]

/-- `Object.assign` with a full-bundle source replaces the destination. -/
theorem objectAssign_eq_src (dst src : TokenBundle) :
    objectAssign dst src = src := rfl

/-- The worker writes an error record only with one of its two message
constants, and the "failed to get token" branch is dead because the
first resolution is never `null`. -/
theorem processTicket_error_msg (envs : Nat → ScrapeEnv) (c : Cache)
    (p : Payload) (m : String)
    (h : (processTicket envs c p).1 = .errorSaved m) :
    m = "not all requested targets could be resolved" := by
  unfold processTicket at h
  split at h
  · next c0 heq =>
    have := resolveSunatTokens_fst_isSome (envs 0) c p true
    rw [heq] at this
    simp at this
  · next result c0 heq =>
    split at h
    · split at h
      · simp at h
      · injection h with h2
        exact h2.symm

/-! ## Claim C10 -/

/-- Claim C10: the resolver's top-level entry point always returns a
non-null record carrying all three target fields, even when every
underlying per-family resolution fails; hence `resolveSunatTokens` never
returns `null`, the worker branch writing the "failed to get token"
error record is unreachable, and a processed ticket terminates either
with a fulfilled result or with the unfulfilled-targets error record
(exceptions being the only other exit, handled at the tick boundary). -/
theorem c10_resolver_never_null :
    (∀ env p, (getSunatTokens env p).isSome = true)
  ∧ (∀ env c p useCache, ((resolveSunatTokens env c p useCache).1).isSome = true)
  ∧ (∀ envs c p,
      (processTicket envs c p).1
          = .errorSaved "not all requested targets could be resolved"
      ∨ ∃ b, (processTicket envs c p).1 = .resultSaved b
          ∧ areTargetsFulfilled b p.targets = true) := by
  refine ⟨getSunatTokens_isSome, resolveSunatTokens_fst_isSome, ?_⟩
  intro envs c p
  unfold processTicket
  split
  · next c0 heq =>
    have := resolveSunatTokens_fst_isSome (envs 0) c p true
    rw [heq] at this
    simp at this
  · next result c0 heq =>
    split
    next result2 retries2 c2 heq2 =>
      split
      · next hful => exact Or.inr ⟨result2, rfl, hful⟩
      · next hnful => exact Or.inl rfl

/-! ## Claim C8 -/

/-- Claim C8: within one resolution attempt the targets are attempted
independently — with the shared legacy steps (login, title check, modal
mitigation, the inter-target `goBack` click) succeeding, each requested
target's field of the returned bundle is exactly the outcome of its own
per-target step, so a caught failure on one target (e.g. `sire`) leaves
the others (`cpe`, `unified-platform`) exactly as their own steps
produced them, and only the failed targets remain null. -/
theorem c8_targets_independent (env : ScrapeEnv) (p : Payload)
    (hs : env.legacy.sharedOk = true) (hg : env.legacy.goBackOk = true) :
    getSunatTokens env p = some
      { sire := if p.targets.contains "sire" then stepVal env.legacy.sireStep
                else none
        cpe := if p.targets.contains "cpe" then stepVal env.legacy.cpeStep
               else none
        unified_platform :=
          if p.targets.contains "unified-platform" then ltsVal env.lts
          else none } := by
  have hleg : resolveLegacyTokens env.legacy p.targets =
      some { sire := if p.targets.contains "sire" then stepVal env.legacy.sireStep
                     else none
             cpe := if p.targets.contains "cpe" then stepVal env.legacy.cpeStep
                    else none } := by
    simp [resolveLegacyTokens, hs, hg]
  have hlts : (match resolveLTSTokens env.lts with
      | some r => r.unified_platform
      | none => none) = ltsVal env.lts := by
    cases h : env.lts.huntStep with
    | ok v => cases v <;> simp [resolveLTSTokens, ltsVal, h]
    | thrown => simp [resolveLTSTokens, ltsVal, h]
  by_cases hsire : "sire" ∈ p.targets <;>
    by_cases hcpe : "cpe" ∈ p.targets <;>
      by_cases huni : "unified-platform" ∈ p.targets <;>
        simp [getSunatTokens, spreadBundle, hleg, hlts, hsire, hcpe, huni]

/-- Witness for C8 on a concrete attempt: `sire` throws (caught), `cpe`
and `unified-platform` succeed — the bundle keeps the two successful
tokens and only `sire` is null. -/
theorem c8_targets_independent_witness :
    getSunatTokens
      { legacy := { sharedOk := true, sireStep := .thrown, goBackOk := true,
                    cpeStep := .ok (some "c-token") },
        lts := { huntStep := .ok (some "u-token") } }
      { sol_username := "user1", sol_key := "key1", ruc := "20123456789",
        targets := ["sire", "cpe", "unified-platform"] }
      = some
        { sire := if ( ["sire", "cpe", "unified-platform"] : List String).contains "sire"
                    then stepVal (.thrown) else none
          cpe := if ( ["sire", "cpe", "unified-platform"] : List String).contains "cpe"
                   then stepVal (.ok (some "c-token")) else none
          unified_platform :=
            if ( ["sire", "cpe", "unified-platform"] : List String).contains "unified-platform"
              then ltsVal { huntStep := .ok (some "u-token") } else none } :=
  c8_targets_independent _ _ rfl rfl

/-- A result record is only ever written for a fulfilled bundle: the
`if (areTargetsFulfilled(result, payload.targets))` guard is the only
path to the result write. -/
theorem processTicket_result_fulfilled (envs : Nat → ScrapeEnv) (c : Cache)
    (p : Payload) (b : TokenBundle)
    (h : (processTicket envs c p).1 = .resultSaved b) :
    areTargetsFulfilled b p.targets = true := by
  unfold processTicket at h
  split at h
  · simp at h
  · next result c0 heq =>
    split at h
    next result2 retries2 c2 heq2 =>
      split at h
      · next hful =>
        injection h with h2
        rw [← h2]
        exact hful
      · simp at h

/-- One iteration of the retry loop on an unfulfilled bundle: the retry
bypasses the cache and its (always non-null) bundle replaces the
accumulated one wholesale via `Object.assign`. -/
theorem retryLoop_step (envs : Nat → ScrapeEnv) (c : Cache) (p : Payload)
    (result : TokenBundle) (retries fuel : Nat)
    (hnf : areTargetsFulfilled result p.targets = false) (b : TokenBundle)
    (hb : getSunatTokens (envs (retries + 1)) p = some b) :
    retryLoop envs c p result retries (fuel + 1)
      = retryLoop envs (cacheSet c (resolveCacheKey p) b) p b (retries + 1) fuel := by
  rw [retryLoop]
  simp [hnf, resolveSunatTokens_no_cache (envs (retries + 1)) c p b hb,
    objectAssign_eq_src]

/-! ## Claim C1 (corrected) -/

/-- Attempt oracle: resolving `sire` throws (caught per-target) while
`cpe` succeeds. -/
def envSireFails : ScrapeEnv :=
  { legacy := { sharedOk := true, sireStep := .thrown, goBackOk := true,
                cpeStep := .ok (some "c-token") },
    lts := { huntStep := .thrown } }

/-- Attempt oracle: resolving `sire` succeeds while `cpe` throws. -/
def envCpeFails : ScrapeEnv :=
  { legacy := { sharedOk := true, sireStep := .ok (some "s-token"),
                goBackOk := true, cpeStep := .thrown },
    lts := { huntStep := .thrown } }

/-- Attempt oracle: both legacy targets throw. -/
def envBothFail : ScrapeEnv :=
  { legacy := { sharedOk := true, sireStep := .thrown, goBackOk := true,
                cpeStep := .thrown },
    lts := { huntStep := .thrown } }

/-- Attempt oracle: both legacy targets succeed. -/
def envBothOk : ScrapeEnv :=
  { legacy := { sharedOk := true, sireStep := .ok (some "s-token"),
                goBackOk := true, cpeStep := .ok (some "c-token") },
    lts := { huntStep := .thrown } }

/-- A ticket requesting the two legacy targets. -/
def payloadSireCpe : Payload :=
  { sol_username := "user1", sol_key := "key1", ruc := "20123456789",
    targets := ["sire", "cpe"] }

/-- Attempt schedule for the C1 scenario: target A (`sire`) fails on the
first attempt but succeeds on the first retry; target B (`cpe`) succeeds
on the first attempt but fails on every retry. -/
def envsC1 : Nat → ScrapeEnv := fun k =>
  if k = 0 then envSireFails else if k = 1 then envCpeFails else envBothFail

/-- Claim C1 counterexample: in the claim's own scenario — targets
`{A,B} = {sire,cpe}`, A failing initially but succeeding on a retry, B
succeeding on the first attempt — the first attempt resolves B, yet the
first retry's `Object.assign` overwrites the already-resolved B with the
retry's `null` (the retry result object always owns all three fields),
the accumulated bundle ends with both fields null, and the ticket
terminates with the error record, not status ok with both fields
populated. -/
theorem c1_counterexample :
    (resolveSunatTokens (envsC1 0) [] payloadSireCpe true).1
      = some { sire := none, cpe := some "c-token", unified_platform := none }
  ∧ (retryLoop envsC1
        (cacheSet [] (resolveCacheKey payloadSireCpe)
          { sire := none, cpe := some "c-token", unified_platform := none })
        payloadSireCpe
        { sire := none, cpe := some "c-token", unified_platform := none } 0 3).1
      = { sire := none, cpe := none, unified_platform := none }
  ∧ (processTicket envsC1 [] payloadSireCpe).1
      = .errorSaved "not all requested targets could be resolved" := by
  refine ⟨rfl, rfl, rfl⟩

/-- Claim C1 (amended): the worker retries with the cache bypassed at
most 3 additional times and stops as soon as the accumulated bundle is
fulfilled, but each non-null retry result replaces the accumulated
bundle wholesale (`Object.assign` with a source owning all three fields,
nulls included), so an already-resolved field survives only if the retry
resolves it again; in particular the `{A,B}` scenario ends status ok
with both fields populated exactly when some single retry attempt
resolves every requested target, e.g. when the first retry resolves both
A and B. -/
theorem c1_retry_replaces_bundle (envs : Nat → ScrapeEnv) (c : Cache)
    (p : Payload) :
    (∀ cc result retries fuel,
      (retryLoop envs cc p result retries fuel).2.1 ≤ retries + fuel)
  ∧ (∀ r0 c0 b1,
      resolveSunatTokens (envs 0) c p true = (some r0, c0) →
      areTargetsFulfilled r0 p.targets = false →
      getSunatTokens (envs 1) p = some b1 →
      areTargetsFulfilled b1 p.targets = true →
      (processTicket envs c p).1 = .resultSaved b1) := by
  constructor
  · intro cc result retries fuel
    exact retryLoop_retries_le envs cc p result retries fuel
  · intro r0 c0 b1 hr0 hnf hb1 hf
    have h3 : (3 : Nat) = 2 + 1 := rfl
    have hloop : retryLoop envs c0 p r0 0 3
        = (b1, 1, cacheSet c0 (resolveCacheKey p) b1) := by
      rw [h3, retryLoop_step envs c0 p r0 0 2 hnf b1 hb1,
        retryLoop_fulfilled envs _ p b1 1 2 hf]
    unfold processTicket
    simp only [hr0, hloop, hf]
    simp

/-- Witness for C1 (amended): with the first attempt resolving only B and
the first retry resolving both A and B, the ticket ends status ok with
both fields populated; and the retry counter respects its budget. -/
def envsC1Wit : Nat → ScrapeEnv := fun k =>
  if k = 0 then envSireFails else envBothOk

/-- Witness for C1 (amended). -/
theorem c1_retry_replaces_bundle_witness :
    (retryLoop envsC1Wit [] payloadSireCpe fullBundle 0 3).2.1 ≤ 0 + 3
  ∧ (processTicket envsC1Wit [] payloadSireCpe).1
      = .resultSaved { sire := some "s-token", cpe := some "c-token",
                       unified_platform := none } :=
  ⟨(c1_retry_replaces_bundle envsC1Wit [] payloadSireCpe).1 [] fullBundle 0 3,
   (c1_retry_replaces_bundle envsC1Wit [] payloadSireCpe).2
     { sire := none, cpe := some "c-token", unified_platform := none }
     (cacheSet [] (resolveCacheKey payloadSireCpe)
       { sire := none, cpe := some "c-token", unified_platform := none })
     { sire := some "s-token", cpe := some "c-token", unified_platform := none }
     (by decide) (by decide) (by decide) (by decide)⟩

/-! ## Claim C2 -/

/-- Claim C2: a ticket whose targets are still unfulfilled after the
initial attempt plus the retries gets the ticket-level error record —
`GET /get-token` then reports it as a 500 error with that message — and
a result record is only ever written for a fulfilled bundle, so no
caller observes status ok with an incomplete bundle. -/
theorem c2_no_partial_success (envs : Nat → ScrapeEnv) (c : Cache)
    (p : Payload) :
    (∀ b, (processTicket envs c p).1 = .resultSaved b →
      areTargetsFulfilled b p.targets = true)
  ∧ (∀ r0 c0, resolveSunatTokens (envs 0) c p true = (some r0, c0) →
      areTargetsFulfilled (retryLoop envs c0 p r0 0 3).1 p.targets = false →
      (processTicket envs c p).1
        = .errorSaved "not all requested targets could be resolved")
  ∧ (∀ s m, s.payload.isSome = true →
      (processTicket envs c p).1 = .errorSaved m →
      getToken (applyOutcome s ((processTicket envs c p).1)) = .errorResp m)
  ∧ (∀ s b, s.payload.isSome = true → s.result = none →
      getToken (applyOutcome s ((processTicket envs c p).1)) = .okResp b →
      areTargetsFulfilled b p.targets = true) := by
  refine ⟨?_, ?_, ?_, ?_⟩
  · exact fun b hb => processTicket_result_fulfilled envs c p b hb
  · intro r0 c0 hr0 hnl
    unfold processTicket
    rcases hl : retryLoop envs c0 p r0 0 3 with ⟨result2, retries2, c2⟩
    rw [hl] at hnl
    simp only [hr0, hl]
    simp at hnl
    simp [hnl]
  · intro s m hp hm
    have hmv := processTicket_error_msg envs c p m hm
    have hne : s.payload.isNone = false := by
      cases hsp : s.payload with
      | none => rw [hsp] at hp; simp at hp
      | some v => rfl
    rw [hm]
    subst hmv
    simp [getToken, applyOutcome, hne, isTruthy,
      (by decide : ("not all requested targets could be resolved" : String).isEmpty
        = false)]
  · intro s b hp hr hok
    have hne : s.payload.isNone = false := by
      cases hsp : s.payload with
      | none => rw [hsp] at hp; simp at hp
      | some v => rfl
    rcases hout : (processTicket envs c p).1 with b2 | m
    · rw [hout] at hok
      by_cases he : isTruthy s.error = true
      · simp [getToken, applyOutcome, hne, he] at hok
      · simp only [Bool.not_eq_true] at he
        simp [getToken, applyOutcome, hne, he] at hok
        rw [← hok]
        exact processTicket_result_fulfilled envs c p b2 hout
    · rw [hout] at hok
      have hmv := processTicket_error_msg envs c p m hout
      subst hmv
      simp [getToken, applyOutcome, hne, isTruthy,
        (by decide : ("not all requested targets could be resolved" : String).isEmpty
          = false)] at hok

/-- Witness for C2: the exhausted-retries run writes the error record and
`GET /get-token` reports it as a 500 with that message; the ok run's
bundle is fulfilled. -/
theorem c2_no_partial_success_witness :
    getToken (applyOutcome { payload := some "{}", result := none, error := none }
        ((processTicket envsC1 [] payloadSireCpe).1))
      = .errorResp "not all requested targets could be resolved"
  ∧ areTargetsFulfilled
      { sire := some "s-token", cpe := some "c-token", unified_platform := none }
      payloadSireCpe.targets = true :=
  ⟨(c2_no_partial_success envsC1 [] payloadSireCpe).2.2.1
     { payload := some "{}", result := none, error := none }
     "not all requested targets could be resolved" rfl (by decide),
   (c2_no_partial_success envsC1Wit [] payloadSireCpe).1
     { sire := some "s-token", cpe := some "c-token", unified_platform := none }
     (by decide)⟩

/-! ## Claim C3 -/

/-- Claim C3: a create-ticket submission whose lookup-shortcut entry names
a ticket whose stored result fulfils the currently requested targets (in
particular any subset of an already-fulfilled ticket's targets, by the
monotonicity conjunct) is answered with that same ticket id and status
"reused" with the state unchanged; when the shortcut misses, or the
stored result does not satisfy the requested targets (e.g. a superset
request), a fresh ticket is created and returned with status "pending". -/
theorem c3_dedup_reuse (st : ServerState) (p : Payload) (newId : String) :
    (∀ tid r, st.lookupCache.lookup (lookupKey p) = some tid →
       st.results.lookup tid = some r →
       areTargetsFulfilled r p.targets = true →
       createTicket st newId p = ({ ticket_id := tid, status := "reused" }, st))
  ∧ (∀ r big sub, (∀ t ∈ sub, t ∈ big) →
       areTargetsFulfilled r big = true → areTargetsFulfilled r sub = true)
  ∧ (findExistingTicket st p = none →
       createTicket st newId p =
         ({ ticket_id := newId, status := "pending" },
          { st with payloads := (newId, p) :: st.payloads,
                    queue := st.queue ++ [newId],
                    lookupCache := (lookupKey p, newId) :: st.lookupCache }))
  ∧ (∀ tid r, st.lookupCache.lookup (lookupKey p) = some tid →
       st.results.lookup tid = some r →
       areTargetsFulfilled r p.targets = false →
       (createTicket st newId p).1 = { ticket_id := newId, status := "pending" }) := by
  refine ⟨?_, ?_, ?_, ?_⟩
  · intro tid r h1 h2 h3
    simp [createTicket, findExistingTicket, h1, h2, h3]
  · intro r big sub hsub hful
    simp only [areTargetsFulfilled, List.all_eq_true] at hful ⊢
    intro t ht
    exact hful t (hsub t ht)
  · intro hnone
    simp [createTicket, hnone]
  · intro tid r h1 h2 h3
    simp [createTicket, findExistingTicket, h1, h2, h3]

/-- A submission requesting a subset of the targets an existing fulfilled
ticket resolved. -/
def payloadSubset : Payload :=
  { sol_username := "user1", sol_key := "key1", ruc := "20123456789",
    targets := ["sire"] }

/-- A state holding a fulfilled ticket `t-1` for the same credentials. -/
def stC3 : ServerState :=
  { lookupCache := [(lookupKey payloadSubset, "t-1")],
    results := [("t-1", fullBundle)], payloads := [], queue := [] }

/-- Witness for C3: the subset request is answered "reused" with the
stored id and unchanged state; the subset targets are fulfilled by the
full bundle; a fresh state yields "pending". -/
theorem c3_dedup_reuse_witness :
    createTicket stC3 "t-new" payloadSubset
      = ({ ticket_id := "t-1", status := "reused" }, stC3)
  ∧ areTargetsFulfilled fullBundle ["sire"] = true
  ∧ (createTicket emptyState "t-new" payloadSubset).1
      = { ticket_id := "t-new", status := "pending" } :=
  ⟨(c3_dedup_reuse stC3 payloadSubset "t-new").1 "t-1" fullBundle
     (by decide) (by decide) (by decide),
   (c3_dedup_reuse stC3 payloadSubset "t-new").2.1 fullBundle
     ["sire", "cpe", "unified-platform"] ["sire"] (by decide) (by decide),
   congrArg Prod.fst
     ((c3_dedup_reuse emptyState payloadSubset "t-new").2.2.1 (by decide))⟩

/-! ## Claim C7 (corrected) -/

/-- Exception-site oracle where loading the payload from Redis throws. -/
def teGetPayloadThrows : TickEnv :=
  { lpopThrows := false, getPayloadThrows := true, parseThrows := false,
    innerThrows := false, errorWriteThrows := false,
    envs := fun _ => envBothFail }

/-- Claim C7 counterexample: an exception raised while loading the
dequeued ticket's payload — a stage the claim explicitly covers — is not
caught at the per-ticket boundary: it escapes the tick (only the
`finally` decrement runs) and no failed-ticket error record is written. -/
theorem c7_counterexample :
    processQueueTick teGetPayloadThrows ["t-1"] (some payloadSireCpe) []
      = .escaped := by
  rfl

/-- Claim C7 (amended): only exceptions raised inside the inner per-ticket
try block (resolution and the result/error store writes) are caught and
converted into the "internal server error" record; exceptions during the
queue pop, the payload fetch, the payload parse, or the error write in
the catch handler itself propagate out of the tick uncaught, with no
record written (the `setInterval` ticker itself is never cleared and
keeps firing). -/
theorem c7_inner_boundary_only (te : TickEnv) (queue : List String)
    (sp : Option Payload) (c : Cache) :
    (te.lpopThrows = false → te.getPayloadThrows = false →
      te.parseThrows = false → te.errorWriteThrows = false →
      processQueueTick te queue sp c ≠ .escaped)
  ∧ (∀ tid rest p, queue = tid :: rest → sp = some p →
      te.lpopThrows = false → te.getPayloadThrows = false →
      te.parseThrows = false → te.innerThrows = true →
      te.errorWriteThrows = false →
      processQueueTick te queue sp c
        = .completed (.errorSaved "internal server error")) := by
  constructor
  · intro h1 h2 h3 h5
    cases queue with
    | nil => simp [processQueueTick, h1]
    | cons t rest =>
      cases sp with
      | none => simp [processQueueTick, h1, h2]
      | some p =>
        cases hi : te.innerThrows <;>
          simp [processQueueTick, h1, h2, h3, h5, hi]
  · intro tid rest p hq hsp h1 h2 h3 h4 h5
    subst hq
    subst hsp
    simp [processQueueTick, h1, h2, h3, h4, h5]

/-- Exception-site oracle where the resolution block throws. -/
def teInnerThrows : TickEnv :=
  { lpopThrows := false, getPayloadThrows := false, parseThrows := false,
    innerThrows := true, errorWriteThrows := false,
    envs := fun _ => envBothFail }

/-- Witness for C7 (amended) on concrete ticks. -/
theorem c7_inner_boundary_only_witness :
    processQueueTick teInnerThrows ["t-1"] (some payloadSireCpe) [] ≠ .escaped
  ∧ processQueueTick teInnerThrows ["t-1"] (some payloadSireCpe) []
      = .completed (.errorSaved "internal server error") :=
  ⟨(c7_inner_boundary_only teInnerThrows ["t-1"] (some payloadSireCpe) []).1
     rfl rfl rfl rfl,
   (c7_inner_boundary_only teInnerThrows ["t-1"] (some payloadSireCpe) []).2
     "t-1" [] payloadSireCpe rfl rfl rfl rfl rfl rfl rfl⟩
